import Mathlib

/-!
Verification development for the `container_rs` container runtime.

Each Rust source construct the claims refer to is shallow-embedded as a Lean
definition, translated from the source files:

* `src/error.rs`                — error taxonomy and the `context` decorator
* `src/namespace/namespace.rs`  — `NamespaceManager::enter_pid_namespace`
* `src/cgroup/cgroup.rs`        — cgroup manager variant A (dotted file names)
* `src/cgroup.rs`               — cgroup manager variant B (compiled by `mod cgroup;`)
* `src/process.rs`              — command resolution and argv construction
* `src/main.rs`                 — the boot sequence `run` and `main`

External effects (filesystem existence checks, file writes, `waitpid` results,
fork outcomes) are passed in explicitly as environment parameters, so every
definition is executable on concrete inputs.
-/

/-! ## Error model (src/error.rs) -/

/-- The `ContainerError` enum from `src/error.rs`.  `Io`, `Nix` and
`InvalidString` carry a `source` error in Rust; we model the source by its
display string.  `RootRequired` carries no payload. -/
inductive ContainerError where
  | Io (message : String)
  | Nix (message : String)
  | NamespaceSetup (message : String)
  | Filesystem (message : String)
  | ProcessExecution (message : String)
  | RootRequired
  | InvalidConfiguration (message : String)
  | InvalidString (message : String)
  | Initialization (message : String)
  | Cgroup (message : String)
deriving DecidableEq, Repr

/-- `ContainerResult<T>` from `src/error.rs`. -/
abbrev ContainerResult (α : Type) := Except ContainerError α

/-- The ten error kinds of the taxonomy (the constructor tags of
`ContainerError`). -/
inductive ErrorKind where
  | Io | Nix | NamespaceSetup | Filesystem | ProcessExecution
  | RootRequired | InvalidConfiguration | InvalidString | Initialization | Cgroup
deriving DecidableEq, Repr

/-- Kind (constructor tag) of a `ContainerError`. -/
def ContainerError.kindOf : ContainerError → ErrorKind
  | .Io _ => .Io
  | .Nix _ => .Nix
  | .NamespaceSetup _ => .NamespaceSetup
  | .Filesystem _ => .Filesystem
  | .ProcessExecution _ => .ProcessExecution
  | .RootRequired => .RootRequired
  | .InvalidConfiguration _ => .InvalidConfiguration
  | .InvalidString _ => .InvalidString
  | .Initialization _ => .Initialization
  | .Cgroup _ => .Cgroup

/-- Message carried by a `ContainerError` (empty for `RootRequired`, which has
no message field). -/
def ContainerError.messageOf : ContainerError → String
  | .Io m => m
  | .Nix m => m
  | .NamespaceSetup m => m
  | .Filesystem m => m
  | .ProcessExecution m => m
  | .RootRequired => ""
  | .InvalidConfiguration m => m
  | .InvalidString m => m
  | .Initialization m => m
  | .Cgroup m => m

/-- `Context::context` from `src/error.rs`: `self.map_err(...)` matches six of
the ten variants and rebuilds them with `format!("{context_msg}:{message}")`;
the wildcard arm `_ => err` returns `Io`, `Nix`, `RootRequired` and
`InvalidString` unchanged. -/
def contextResult {α : Type} (contextMsg : String) :
    ContainerResult α → ContainerResult α
  | .ok a => .ok a
  | .error err =>
    .error (match err with
      | .NamespaceSetup m => .NamespaceSetup (contextMsg ++ ":" ++ m)
      | .Filesystem m => .Filesystem (contextMsg ++ ":" ++ m)
      | .Initialization m => .Initialization (contextMsg ++ ":" ++ m)
      | .ProcessExecution m => .ProcessExecution (contextMsg ++ ":" ++ m)
      | .InvalidConfiguration m => .InvalidConfiguration (contextMsg ++ ":" ++ m)
      | .Cgroup m => .Cgroup (contextMsg ++ ":" ++ m)
      | e => e)

/-- Kind of the error inside a failed `ContainerResult`, if any. -/
def resultKind {α : Type} : ContainerResult α → Option ErrorKind
  | .ok _ => none
  | .error e => some e.kindOf

/-! ## Namespace manager (src/namespace/namespace.rs) -/

namespace NsMgr

/-- `nix::sys::wait::WaitStatus`; pids are `Int`, signal numbers are `Int`
(the Rust code casts the signal with `as i32`). -/
inductive WaitStatus where
  | Exited (pid : Int) (code : Int)
  | Signaled (pid : Int) (signal : Int) (coreDumped : Bool)
  | Stopped (pid : Int) (signal : Int)
  | Continued (pid : Int)
  | StillAlive
  | PtraceEvent (pid : Int) (signal : Int) (event : Int)
  | PtraceSyscall (pid : Int)
deriving DecidableEq, Repr

/-- The `waitpid` errno values distinguished by the code. -/
inductive Errno where
  | ECHILD
  | EINTR
  | other (n : Int)
deriving DecidableEq, Repr

/-- One `waitpid` invocation result. -/
abbrev WaitResult := Except Errno WaitStatus

/-- `nix::unistd::ForkResult`. -/
inductive ForkResult where
  | Parent (child : Int)
  | Child
deriving DecidableEq, Repr

/-- Outcome of `enter_pid_namespace`: the parent terminates the whole program
via `std::process::exit`, the child (or a fork failure) returns a
`ContainerResult` to the caller; `stillWaiting` marks a parent whose supplied
`waitpid` event list ran out while the loop would keep waiting. -/
inductive EnterOutcome where
  | exitProgram (code : Int)
  | ret (r : ContainerResult Unit)
  | stillWaiting
deriving Repr

/-- The parent `loop` of `NamespaceManager::enter_pid_namespace`, folded over
the sequence of `waitpid(child)` results it observes.  Each arm mirrors one
`match` arm of the Rust loop; `none` means the event list was exhausted while
the loop was still waiting. -/
def parentWaitLoop : List WaitResult → Option Int
  | [] => none
  | .ok (.Exited _ code) :: _ => some code
  | .ok (.Signaled _ signal _) :: _ => some (128 + signal)
  | .ok (.Stopped _ _) :: rest => parentWaitLoop rest
  | .ok (.Continued _) :: rest => parentWaitLoop rest
  | .ok _ :: _ => some 1
  | .error .ECHILD :: _ => some 0
  | .error _ :: _ => some 1

/-- `NamespaceManager::enter_pid_namespace`, given the fork outcome and the
`waitpid` results the parent observes. -/
def enterPidNamespace (forkRes : Except String ForkResult)
    (events : List WaitResult) : EnterOutcome :=
  match forkRes with
  | .error e => .ret (.error (.NamespaceSetup ("Fork failed: " ++ e)))
  | .ok .Child => .ret (.ok ())
  | .ok (.Parent _) =>
    match parentWaitLoop events with
    | some code => .exitProgram code
    | none => .stillWaiting

end NsMgr

/-- C1: the parent of `enter_pid_namespace` terminates the program with the
child exit code on normal exit, with `128 + signal` on signal death, with `0`
on `ECHILD`; `Stopped` and `Continued` are skipped and the loop continues; the
child branch returns `Ok(())`. -/
theorem enter_pid_namespace_parent_wait_behavior
    (child pid code signal : Int) (coreDumped : Bool)
    (rest : List NsMgr.WaitResult) (events : List NsMgr.WaitResult) :
    NsMgr.enterPidNamespace (.ok (.Parent child))
        (.ok (.Exited pid code) :: rest) = .exitProgram code
    ∧ NsMgr.enterPidNamespace (.ok (.Parent child))
        (.ok (.Signaled pid signal coreDumped) :: rest)
        = .exitProgram (128 + signal)
    ∧ NsMgr.enterPidNamespace (.ok (.Parent child))
        (.error .ECHILD :: rest) = .exitProgram 0
    ∧ NsMgr.enterPidNamespace (.ok (.Parent child))
        (.ok (.Stopped pid signal) :: rest)
        = NsMgr.enterPidNamespace (.ok (.Parent child)) rest
    ∧ NsMgr.enterPidNamespace (.ok (.Parent child))
        (.ok (.Continued pid) :: rest)
        = NsMgr.enterPidNamespace (.ok (.Parent child)) rest
    ∧ NsMgr.enterPidNamespace (.ok .Child) events = .ret (.ok ()) := by
  refine ⟨rfl, rfl, rfl, ?_, ?_, rfl⟩ <;>
    simp [NsMgr.enterPidNamespace, NsMgr.parentWaitLoop]

/-- C7 (counterexample): `context` applied to an `Io` error returns it
unchanged — the context description is not prepended to its message, so the
decoration does not hold for all ten kinds. -/
theorem context_io_unchanged_counterexample :
    contextResult "ctx" (.error (.Io "boom") : ContainerResult Unit)
      = .error (.Io "boom")
    ∧ ContainerError.messageOf (.Io "boom") = "boom"
    ∧ ¬ ("ctx".data <+: "boom".data) := by
  refine ⟨rfl, rfl, by decide⟩

/-- C7 (amended): `context` preserves the kind of every error, and prepends
`context_msg ++ ":"` to the message of the six message-carrying kinds
`NamespaceSetup`, `Filesystem`, `Initialization`, `ProcessExecution`,
`InvalidConfiguration` and `Cgroup`; the remaining four kinds (`Io`, `Nix`,
`RootRequired`, `InvalidString`) are returned unchanged. -/
theorem context_preserves_kind_and_prepends (c m : String) :
    (∀ e : ContainerError,
        resultKind (contextResult c (.error e : ContainerResult Unit))
          = some e.kindOf)
    ∧ contextResult c (.error (.NamespaceSetup m) : ContainerResult Unit)
        = .error (.NamespaceSetup (c ++ ":" ++ m))
    ∧ contextResult c (.error (.Filesystem m) : ContainerResult Unit)
        = .error (.Filesystem (c ++ ":" ++ m))
    ∧ contextResult c (.error (.Initialization m) : ContainerResult Unit)
        = .error (.Initialization (c ++ ":" ++ m))
    ∧ contextResult c (.error (.ProcessExecution m) : ContainerResult Unit)
        = .error (.ProcessExecution (c ++ ":" ++ m))
    ∧ contextResult c (.error (.InvalidConfiguration m) : ContainerResult Unit)
        = .error (.InvalidConfiguration (c ++ ":" ++ m))
    ∧ contextResult c (.error (.Cgroup m) : ContainerResult Unit)
        = .error (.Cgroup (c ++ ":" ++ m))
    ∧ contextResult c (.error (.Io m) : ContainerResult Unit)
        = .error (.Io m)
    ∧ contextResult c (.error (.Nix m) : ContainerResult Unit)
        = .error (.Nix m)
    ∧ contextResult c (.error .RootRequired : ContainerResult Unit)
        = .error .RootRequired
    ∧ contextResult c (.error (.InvalidString m) : ContainerResult Unit)
        = .error (.InvalidString m) := by
  refine ⟨fun e => ?_, rfl, rfl, rfl, rfl, rfl, rfl, rfl, rfl, rfl, rfl⟩
  cases e <;> rfl

/-! ## Cgroup managers

Two variants exist in the repository: `src/cgroup/cgroup.rs` (namespace
`CgroupA` below, dotted control-file names, full limit support) and
`src/cgroup.rs` (namespace `CgroupB` below, the module actually compiled by
`mod cgroup;` in `src/main.rs`).  `detect_cgroup_version` reads the host
filesystem, so the detected version is an explicit parameter here. -/

/-- `CgroupVersion` (identical in both variants). -/
inductive CgroupVersion where
  | V1
  | V2
deriving DecidableEq, Repr

/-- `/sys/fs/cgroup`, the `CGROUP_ROOT` constant of both variants. -/
def CGROUP_ROOT : String := "/sys/fs/cgroup"

/-- `2 ^ 64`, the modulus of Rust `u64` arithmetic. -/
def u64Mod : Nat := 18446744073709551616

/-- `u64::MAX`. -/
def u64Max : Nat := 18446744073709551615

/-- `i64::MAX`. -/
def i64Max : Int := 9223372036854775807

namespace CgroupA

/-- `CgroupConfig` from `src/cgroup/cgroup.rs`: `u64` fields as `Nat`, the
`i64` pids limit as `Int`.  The Rust default name is
`container-<process id>`; the pid-dependent default is irrelevant to the
claims and the name is always passed explicitly here. -/
structure CgroupConfig where
  name : String
  memory_limit : Option Nat := none
  memory_swap_limit : Option Nat := none
  cpu_weight : Option Nat := none
  cpu_quota : Option Nat := none
  cpu_period : Option Nat := some 100000
  pids_limit : Option Int := none
deriving DecidableEq, Repr

/-- `CgroupConfig::new(name)`. -/
def CgroupConfig.new (name : String) : CgroupConfig := { name := name }

/-- `CgroupConfig::with_memory_mb(mb)`: `mb * 1024 * 1024` in `u64`
arithmetic. -/
def CgroupConfig.with_memory_mb (c : CgroupConfig) (mb : Nat) : CgroupConfig :=
  { c with memory_limit := some (mb * 1024 * 1024 % u64Mod) }

/-- `CgroupConfig::with_pids_limit(limit)`. -/
def CgroupConfig.with_pids_limit (c : CgroupConfig) (limit : Int) : CgroupConfig :=
  { c with pids_limit := some limit }

/-- `CgroupConfig::with_cpu_weight(weight)`. -/
def CgroupConfig.with_cpu_weight (c : CgroupConfig) (weight : Nat) : CgroupConfig :=
  { c with cpu_weight := some weight }

/-- The `CgroupManager` struct. -/
structure CgroupManager where
  cgroup_path : String
  config : CgroupConfig
  cgroup_version : CgroupVersion
deriving DecidableEq, Repr

/-- `CgroupManager::new` with the detected version made explicit: for `V1`
the path is `CGROUP_ROOT` itself, for `V2` it is `CGROUP_ROOT/<name>`. -/
def CgroupManager.new (version : CgroupVersion) (config : CgroupConfig) :
    CgroupManager :=
  { cgroup_path :=
      match version with
      | .V1 => CGROUP_ROOT
      | .V2 => CGROUP_ROOT ++ "/" ++ config.name
    config := config
    cgroup_version := version }

/-- The four writes of `enable_controllers_v2` (all to the parent
`cgroup.subtree_control`; failures are logged and ignored). -/
def enableControllersWrites : List (String × String) :=
  [(CGROUP_ROOT ++ "/cgroup.subtree_control", "+cpu"),
   (CGROUP_ROOT ++ "/cgroup.subtree_control", "+memory"),
   (CGROUP_ROOT ++ "/cgroup.subtree_control", "+pids"),
   (CGROUP_ROOT ++ "/cgroup.subtree_control", "+io")]

/-- Writes of `set_memory_limit_v2`: `memory.max` gets the decimal limit and
`memory.swap.max` gets `0`. -/
def setMemoryLimitV2Writes (path : String) (limit : Nat) :
    List (String × String) :=
  [(path ++ "/memory.max", toString limit),
   (path ++ "/memory.swap.max", "0")]

/-- Write of `set_memory_swap_v2`. -/
def setMemorySwapV2Writes (path : String) (limit : Nat) :
    List (String × String) :=
  [(path ++ "/memory.swap.max", toString limit)]

/-- Write of `set_cpu_weight_v2`. -/
def setCpuWeightV2Writes (path : String) (weight : Nat) :
    List (String × String) :=
  [(path ++ "/cpu.weight", toString weight)]

/-- Write of `set_cpu_max_v2`: `"max"` when the quota is the `u64::MAX`
sentinel, otherwise `"<quota> <period>"`. -/
def setCpuMaxV2Writes (path : String) (quota period : Nat) :
    List (String × String) :=
  [(path ++ "/cpu.max",
    if quota = u64Max then "max" else toString quota ++ " " ++ toString period)]

/-- Write of `set_pids_limit_v2`: the literal `"max"` when the limit is the
`i64::MAX` sentinel, otherwise the decimal representation. -/
def setPidsLimitV2Writes (path : String) (limit : Int) :
    List (String × String) :=
  [(path ++ "/pids.max", if limit = i64Max then "max" else toString limit)]

/-- The sequence of control-file writes attempted by a `setup_v2` in which
every step succeeds, in program order: enable controllers, then one block per
`Some` limit field.  The cpu block requires both quota and period, mirroring
the nested `if let`. -/
def setupV2Writes (m : CgroupManager) : List (String × String) :=
  enableControllersWrites
    ++ (match m.config.memory_limit with
        | some l => setMemoryLimitV2Writes m.cgroup_path l
        | none => [])
    ++ (match m.config.memory_swap_limit with
        | some l => setMemorySwapV2Writes m.cgroup_path l
        | none => [])
    ++ (match m.config.cpu_weight with
        | some w => setCpuWeightV2Writes m.cgroup_path w
        | none => [])
    ++ (match m.config.cpu_quota, m.config.cpu_period with
        | some q, some p => setCpuMaxV2Writes m.cgroup_path q p
        | _, _ => [])
    ++ (match m.config.pids_limit with
        | some l => setPidsLimitV2Writes m.cgroup_path l
        | none => [])

/-- One step of the `while attemps < retries` loop of `delete_with_retry`.
`rmdirOk k` tells whether the `fs::remove_dir` of the iteration with
`attemps = k` succeeds.  Returns the loop result together with the list of
sleep durations (milliseconds).  The fuel `remaining` equals
`retries - attemps`, so structural recursion matches the loop bound. -/
def deleteWithRetryAux (rmdirOk : Nat → Bool) (limit : Nat) :
    Nat → Nat → Nat → Except ContainerError Unit × List Nat
  | 0, _, _ => (.error (.Io "could not delete"), [])
  | remaining + 1, attemps, delay =>
    if rmdirOk attemps then (.ok (), [])
    else
      let attemps2 := attemps + 1
      let delay2 := delay * attemps2
      let delay3 := if limit < delay2 then limit else delay2
      let r := deleteWithRetryAux rmdirOk limit remaining attemps2 delay3
      (r.1, delay :: r.2)

/-- `CgroupManager::delete_with_retry(path, retries, limit_backoff)`: starts
with `attemps = 0` and a 10 ms delay; after exhaustion it builds
`io::Error::new(TimedOut, "could not delete")` and converts it with `.into()`,
which the `#[from]` conversion turns into the `Io` variant. -/
def delete_with_retry (rmdirOk : Nat → Bool) (retries : Nat) (limit : Nat) :
    Except ContainerError Unit × List Nat :=
  deleteWithRetryAux rmdirOk limit retries 0 10

/-- Environment of a `cleanup` run.  `preDelete` is the result of the
member-killing phase that runs when the directory exists: the
`write_file(cgroup.kill, "1")` when the kill file exists, otherwise the
read-`cgroup.procs`-and-SIGKILL block (abstracted as one fallible step). -/
structure CleanupEnv where
  pathExists : Bool
  killFileExists : Bool
  killWrite : Except ContainerError Unit
  fallbackKill : Except ContainerError Unit
  rmdirOk : Nat → Bool

/-- Observable outcome of a `cleanup` call: its result, the retry sleep
trace, and the path handed to `delete_with_retry` (if it was reached). -/
structure CleanupRun where
  result : Except ContainerError Unit
  sleeps : List Nat
  rmdirTarget : Option String
deriving Repr

/-- `CgroupManager::cleanup`: nothing happens when the path does not exist;
otherwise the members are killed and
`delete_with_retry(&self.cgroup_path, 5, 100ms)` runs. -/
def cleanup (m : CgroupManager) (env : CleanupEnv) : CleanupRun :=
  if env.pathExists then
    match (if env.killFileExists then env.killWrite else env.fallbackKill) with
    | .error e => ⟨.error e, [], none⟩
    | .ok _ =>
      let r := delete_with_retry env.rmdirOk 5 100
      ⟨r.1, r.2, some m.cgroup_path⟩
  else ⟨.ok (), [], none⟩

end CgroupA

/-- C3 (counterexample): when every `rmdir` attempt fails, `cleanup` returns
the error produced by `delete_with_retry`, whose `.into()` conversion of the
`io::Error` yields the `Io` kind, not the `Cgroup` kind the claim states. -/
theorem delete_with_retry_io_kind_counterexample :
    (CgroupA.cleanup
        (CgroupA.CgroupManager.new .V2 (CgroupA.CgroupConfig.new "c"))
        ⟨true, true, .ok (), .ok (), fun _ => false⟩).result
      = .error (.Io "could not delete")
    ∧ ContainerError.kindOf (.Io "could not delete") ≠ ErrorKind.Cgroup := by
  exact ⟨rfl, by decide⟩

/-- C3 (amended): cleaning up an existing cgroup directory whose members have
been killed attempts `rmdir` 5 times on the handle path, sleeping between
attempts with the delay multiplied by the attempt index and capped at the
caller-supplied 100 ms ceiling (trace `[10, 10, 20, 60, 100]`); after all
attempts fail it returns an `Io`-kind error (from
`io::Error::new(TimedOut, "could not delete")` via `.into()`) with message
`could not delete`. -/
theorem cleanup_delete_retry_exhaustion (m : CgroupA.CgroupManager)
    (env : CgroupA.CleanupEnv) (f : Nat → Bool)
    (hex : env.pathExists = true) (hkf : env.killFileExists = true)
    (hkw : env.killWrite = .ok ()) (hrm : env.rmdirOk = f)
    (hf : ∀ k, k < 5 → f k = false) :
    CgroupA.cleanup m env =
      ⟨.error (.Io "could not delete"), [10, 10, 20, 60, 100],
        some m.cgroup_path⟩ := by
  have h0 := hf 0 (by norm_num)
  have h1 := hf 1 (by norm_num)
  have h2 := hf 2 (by norm_num)
  have h3 := hf 3 (by norm_num)
  have h4 := hf 4 (by norm_num)
  simp [CgroupA.cleanup, hex, hkf, hkw, hrm, CgroupA.delete_with_retry,
    CgroupA.deleteWithRetryAux, h0, h1, h2, h3, h4]

/-- Witness for `cleanup_delete_retry_exhaustion` at a concrete manager and
environment. -/
theorem cleanup_delete_retry_exhaustion_witness :
    CgroupA.cleanup
        (CgroupA.CgroupManager.new .V2 (CgroupA.CgroupConfig.new "cw"))
        ⟨true, true, .ok (), .ok (), fun _ => false⟩ =
      ⟨.error (.Io "could not delete"), [10, 10, 20, 60, 100],
        some (CgroupA.CgroupManager.new .V2
          (CgroupA.CgroupConfig.new "cw")).cgroup_path⟩ :=
  cleanup_delete_retry_exhaustion _ _ (fun _ => false) rfl rfl rfl rfl
    (fun _ _ => rfl)

/-- C8: whenever the pids limit is set, `setup_v2` writes to the group file
`pids.max` the literal `"max"` if the limit is `i64::MAX` and its decimal
representation otherwise. -/
theorem setup_v2_pids_limit_write (m : CgroupA.CgroupManager) (l : Int)
    (h : m.config.pids_limit = some l) :
    (m.cgroup_path ++ "/pids.max",
        if l = i64Max then "max" else toString l)
      ∈ CgroupA.setupV2Writes m := by
  simp [CgroupA.setupV2Writes, h, CgroupA.setPidsLimitV2Writes]

/-- Witness for `setup_v2_pids_limit_write`: a configuration using the
`i64::MAX` sentinel. -/
theorem setup_v2_pids_limit_write_witness :
    ((CgroupA.CgroupManager.new .V2
          ((CgroupA.CgroupConfig.new "p").with_pids_limit i64Max)).cgroup_path
        ++ "/pids.max",
      if i64Max = i64Max then "max" else toString i64Max)
      ∈ CgroupA.setupV2Writes (CgroupA.CgroupManager.new .V2
          ((CgroupA.CgroupConfig.new "p").with_pids_limit i64Max)) :=
  setup_v2_pids_limit_write _ i64Max rfl

namespace CgroupB

/-- `CgroupConfig` from `src/cgroup.rs`; here `pids_limit` is `u64`
(`Option Nat`), unlike variant A where it is `i64`. -/
structure CgroupConfig where
  name : String
  memory_limit : Option Nat := none
  memory_swap_limit : Option Nat := none
  cpu_weight : Option Nat := none
  cpu_quota : Option Nat := none
  cpu_period : Option Nat := some 100000
  pids_limit : Option Nat := none
deriving DecidableEq, Repr

/-- `CgroupConfig::new(name)`. -/
def CgroupConfig.new (name : String) : CgroupConfig := { name := name }

/-- `CgroupConfig::with_memory_mb(mb)`: `mb * 1024 * 1024` in `u64`
arithmetic. -/
def CgroupConfig.with_memory_mb (c : CgroupConfig) (mb : Nat) : CgroupConfig :=
  { c with memory_limit := some (mb * 1024 * 1024 % u64Mod) }

/-- The `CgroupManager` struct of `src/cgroup.rs`. -/
structure CgroupManager where
  cgroup_path : String
  config : CgroupConfig
  cgroup_version : CgroupVersion
deriving DecidableEq, Repr

/-- `CgroupManager::new` of `src/cgroup.rs` (same path rule as variant A):
`CGROUP_ROOT` itself for `V1`, `CGROUP_ROOT/<name>` for `V2`. -/
def CgroupManager.new (version : CgroupVersion) (config : CgroupConfig) :
    CgroupManager :=
  { cgroup_path :=
      match version with
      | .V1 => CGROUP_ROOT
      | .V2 => CGROUP_ROOT ++ "/" ++ config.name
    config := config
    cgroup_version := version }

/-- The four writes of this variant's `enable_controllers_v2` (failures are
logged and ignored). -/
def enableControllersWrites : List (String × String) :=
  [(CGROUP_ROOT ++ "/cgroup.subtree_control", "+cpu"),
   (CGROUP_ROOT ++ "/cgroup.subtree_control", "+memory"),
   (CGROUP_ROOT ++ "/cgroup.subtree_control", "+pids"),
   (CGROUP_ROOT ++ "/cgroup.subtree_control", "+io")]

/-- The control-file writes attempted by a fully successful `setup_v2` of
`src/cgroup.rs`: the controllers, then — when a memory limit is set —
`set_memory_limit`, whose target is `self.cgroup_path.join("memory_max")`
(no dot).  This variant writes no other limit file. -/
def setupV2Writes (m : CgroupManager) : List (String × String) :=
  enableControllersWrites
    ++ (match m.config.memory_limit with
        | some l => [(m.cgroup_path ++ "/memory_max", toString l)]
        | none => [])

/-- Filesystem environment for the result-level model: the outcome of
`fs::create_dir_all` and, per target path, the failure message of
`write_file` (`none` = the write succeeds; `some msg` = it fails and
`write_file` returns `Cgroup` with that formatted message). -/
structure CgEnv where
  createDir : Except String Unit
  writeFail : String → Option String

/-- `CgroupManager::write_file` at the result level. -/
def writeFile (env : CgEnv) (path : String) : Except ContainerError Unit :=
  match env.writeFail path with
  | none => .ok ()
  | some m => .error (.Cgroup m)

/-- `set_memory_limit` of `src/cgroup.rs`: a fallible write to the
`memory_max` file. -/
def set_memory_limit (env : CgEnv) (path : String) : Except ContainerError Unit :=
  writeFile env (path ++ "/memory_max")

/-- `setup_v2` of `src/cgroup.rs` at the result level: `create_dir_all` may
fail with a `Cgroup` error; controller-enable failures are ignored; the
memory-limit write (when configured) propagates with `?`. -/
def setupV2 (env : CgEnv) (m : CgroupManager) : Except ContainerError Unit :=
  match env.createDir with
  | .error e => .error (.Cgroup ("Failed to create cgroup directory: " ++ e))
  | .ok _ =>
    match m.config.memory_limit with
    | none => .ok ()
    | some _ => set_memory_limit env m.cgroup_path

/-- `setup_v1` of `src/cgroup.rs` (a stub returning `Ok(())`). -/
def setupV1 : Except ContainerError Unit := .ok ()

/-- `add_process_v1` of `src/cgroup.rs` (a stub returning `Ok(())`). -/
def addProcessV1 : Except ContainerError Unit := .ok ()

/-- `add_process_v2`: writes the decimal pid into `cgroup.procs`
(fallible). -/
def addProcessV2 (env : CgEnv) (path : String) (pid : Int) :
    Except ContainerError Unit :=
  let _ := toString pid
  writeFile env (path ++ "/cgroup.procs")

/-- `CgroupManager::setup` of `src/cgroup.rs`: the `match` statement computes
the version-specific result and discards it (statement semicolon, no `?`),
then returns `Ok(())`. -/
def setup (m : CgroupManager) (env : CgEnv) : Except ContainerError Unit :=
  let _ :=
    match m.cgroup_version with
    | .V1 => setupV1
    | .V2 => setupV2 env m
  .ok ()

/-- `CgroupManager::add_process` of `src/cgroup.rs`: same discarding shape
as `setup`. -/
def addProcess (m : CgroupManager) (env : CgEnv) (pid : Int) :
    Except ContainerError Unit :=
  let _ :=
    match m.cgroup_version with
    | .V1 => addProcessV1
    | .V2 => addProcessV2 env m.cgroup_path pid
  .ok ()

/-- Filesystem actions performed by this variant's `cleanup`. -/
inductive FsAction where
  | writeFile (path content : String)
  | cleanupChild (path : String)
  | removeDirAll (path : String)
deriving DecidableEq, Repr

/-- Environment of a `cleanup` call: whether `memory.reclaim` exists and the
subdirectory entries found by `read_dir`. -/
structure CleanupEnv where
  reclaimExists : Bool
  subdirs : List String

/-- `cleanup` of `src/cgroup.rs`: best-effort `memory.reclaim` write, a
recursive child cleanup per subdirectory (recorded one level deep as a
`cleanupChild` action; each child result is discarded with `let _`), a
memory-release wait loop that performs no filesystem action, and finally
`fs::remove_dir_all(&self.cgroup_path)` whose failure is only logged.  The
function always returns `Ok(())`. -/
def cleanup (m : CgroupManager) (env : CleanupEnv) :
    Except ContainerError Unit × List FsAction :=
  (.ok (),
    (if env.reclaimExists
      then [FsAction.writeFile (m.cgroup_path ++ "/memory.reclaim") "1"]
      else [])
    ++ env.subdirs.map (fun sub => FsAction.cleanupChild sub)
    ++ [FsAction.removeDirAll m.cgroup_path])

/-- `Drop for CgroupManager` of `src/cgroup.rs`: invokes `self.cleanup()`
and only logs a failure. -/
def dropTeardown (m : CgroupManager) (env : CleanupEnv) : List FsAction :=
  (cleanup m env).2

end CgroupB

/-- C2: with a 64 MB limit, the compiled cgroup variant (`src/cgroup.rs`)
writes the correct decimal value `64 * 1048576 = 67108864` but targets the
file `memory_max` (no dot); no write to `memory.max` occurs there.  The
`src/cgroup/cgroup.rs` variant targets the dotted `memory.max` file the
claim (and cgroup v2) requires. -/
theorem setup_memory_mb_64_write_targets :
    CgroupB.setupV2Writes
        (CgroupB.CgroupManager.new .V2
          ((CgroupB.CgroupConfig.new "c").with_memory_mb 64))
      = [("/sys/fs/cgroup/cgroup.subtree_control", "+cpu"),
         ("/sys/fs/cgroup/cgroup.subtree_control", "+memory"),
         ("/sys/fs/cgroup/cgroup.subtree_control", "+pids"),
         ("/sys/fs/cgroup/cgroup.subtree_control", "+io"),
         ("/sys/fs/cgroup/c/memory_max", "67108864")]
    ∧ ("/sys/fs/cgroup/c/memory.max", "67108864")
        ∉ CgroupB.setupV2Writes
            (CgroupB.CgroupManager.new .V2
              ((CgroupB.CgroupConfig.new "c").with_memory_mb 64))
    ∧ ("/sys/fs/cgroup/c/memory.max", "67108864")
        ∈ CgroupA.setupV2Writes
            (CgroupA.CgroupManager.new .V2
              ((CgroupA.CgroupConfig.new "c").with_memory_mb 64)) := by
  refine ⟨by decide, by decide, by decide⟩

/-- C9: under v1 both `CgroupManager::new` variants store `/sys/fs/cgroup`
itself (no per-container subdirectory), under v2 they store
`/sys/fs/cgroup/<name>`; in the `src/cgroup.rs` variant the directory removal
performed by `cleanup` targets exactly the stored `cgroup_path`, and the
`Drop`-time teardown performs the same actions as `cleanup`. -/
theorem cgroup_path_v1_root_and_cleanup_target :
    (∀ cfg : CgroupA.CgroupConfig,
        (CgroupA.CgroupManager.new .V1 cfg).cgroup_path = "/sys/fs/cgroup"
        ∧ (CgroupA.CgroupManager.new .V2 cfg).cgroup_path
            = "/sys/fs/cgroup" ++ "/" ++ cfg.name)
    ∧ (∀ cfg : CgroupB.CgroupConfig,
        (CgroupB.CgroupManager.new .V1 cfg).cgroup_path = "/sys/fs/cgroup"
        ∧ (CgroupB.CgroupManager.new .V2 cfg).cgroup_path
            = "/sys/fs/cgroup" ++ "/" ++ cfg.name)
    ∧ (∀ (m : CgroupB.CgroupManager) (env : CgroupB.CleanupEnv),
        CgroupB.FsAction.removeDirAll m.cgroup_path
            ∈ (CgroupB.cleanup m env).2
        ∧ (∀ p, CgroupB.FsAction.removeDirAll p ∈ (CgroupB.cleanup m env).2
            → p = m.cgroup_path)
        ∧ CgroupB.dropTeardown m env = (CgroupB.cleanup m env).2) := by
  refine ⟨fun cfg => ⟨rfl, rfl⟩, fun cfg => ⟨rfl, rfl⟩, fun m env => ⟨?_, ?_, rfl⟩⟩
  · simp [CgroupB.cleanup]
  · intro p hp
    simp [CgroupB.cleanup] at hp
    exact hp

/-- C10: in `src/cgroup.rs`, `setup` and `add_process` return `Ok(())` for
every manager, environment and pid, whatever the detected version, because
the inner version-specific result is discarded; the inner calls themselves do
fail on a failed directory creation or `cgroup.procs` write, so the failures
exist but are never propagated. -/
theorem setup_and_add_process_always_ok :
    (∀ (m : CgroupB.CgroupManager) (env : CgroupB.CgEnv) (pid : Int),
        CgroupB.setup m env = .ok () ∧ CgroupB.addProcess m env pid = .ok ())
    ∧ CgroupB.setupV2 ⟨.error "boom", fun _ => none⟩
        (CgroupB.CgroupManager.new .V2 (CgroupB.CgroupConfig.new "c"))
        = .error (.Cgroup "Failed to create cgroup directory: boom")
    ∧ CgroupB.addProcessV2 ⟨.ok (), fun _ => some "wfail"⟩
        "/sys/fs/cgroup/c" 7 = .error (.Cgroup "wfail")
    ∧ CgroupB.setup
        (CgroupB.CgroupManager.new .V2 (CgroupB.CgroupConfig.new "c"))
        ⟨.error "boom", fun _ => none⟩ = .ok ()
    ∧ CgroupB.addProcess
        (CgroupB.CgroupManager.new .V2 (CgroupB.CgroupConfig.new "c"))
        ⟨.ok (), fun _ => some "wfail"⟩ 7 = .ok () := by
  exact ⟨fun m env pid => ⟨rfl, rfl⟩, rfl, rfl, rfl, rfl⟩

/-! ## Process manager (src/process.rs) -/

namespace ProcessMgr

/-- The search directories of `execute_container_command`, in program
order. -/
def searchDirs : List String := ["/bin", "/usr/bin", "/sbin", "/usr/sbin"]

/-- The candidate paths `format!("{}/{}", dir, command)` built from the
search directories. -/
def candidatePaths (command : String) : List String :=
  searchDirs.map (fun dir => dir ++ "/" ++ command)

/-- The executable-resolution step of `execute_container_command`: a command
starting with `/` is used verbatim; otherwise the first candidate for which
`Path::new(p).exists()` holds is used, defaulting to `/bin/<command>`.
`exists?` is the filesystem-existence oracle. -/
def resolveCommandPath (exists? : String → Bool) (command : String) : String :=
  if command.startsWith "/" then command
  else
    match (candidatePaths command).find? (fun p => exists? p) with
    | some p => p
    | none => "/bin/" ++ command

/-- The not-found check that follows resolution in
`execute_container_command`: a resolved path that does not exist yields
`ContainerError::process_execution("Command not found in container: …")`. -/
def resolveStage (exists? : String → Bool) (command : String) :
    Except ContainerError String :=
  let commandPath := resolveCommandPath exists? command
  if exists? commandPath then .ok commandPath
  else .error (.ProcessExecution ("Command not found in container: " ++ commandPath))

/-- `CString::new` on a byte string: errors (with `NulError`) exactly when
the bytes contain an interior `0`. -/
def cstringNew (bytes : List Nat) : Except Unit (List Nat) :=
  if 0 ∈ bytes then .error () else .ok bytes

/-- The `CString::new(arg).unwrap()` loop of `build_argv` over the argument
list: `none` models the panic performed by `.unwrap()` on a `NulError`. -/
def unwrapArgs : List (List Nat) → Option (List (List Nat))
  | [] => some []
  | a :: rest =>
    match cstringNew a with
    | .error _ => none
    | .ok c => (unwrapArgs rest).map (fun r => c :: r)

/-- `ProcessManager::build_argv`: both the command path and every argument
go through `CString::new(..).unwrap()`, so a NUL byte anywhere aborts the
process (`none`); otherwise the function returns `Ok(argv)`.  No error value
is ever constructed. -/
def build_argv (commandPath : List Nat) (args : List (List Nat)) :
    Option (ContainerResult (List (List Nat))) :=
  match cstringNew commandPath with
  | .error _ => none
  | .ok c =>
    match unwrapArgs args with
    | none => none
    | some rest => some (.ok (c :: rest))

end ProcessMgr

/-- C5: a command starting with `/` resolves verbatim; otherwise the first
existing candidate among `/bin`, `/usr/bin`, `/sbin`, `/usr/sbin` (in that
order) is used, with `/bin/<command>` as the default; and when the resolved
path does not exist the stage fails with a `ProcessExecution` error whose
message begins with `Command not found`. -/
theorem execute_command_resolution (ex : String → Bool) (command : String) :
    ProcessMgr.resolveCommandPath ex command
      = (if command.startsWith "/" then command
         else (([ "/bin" ++ "/" ++ command, "/usr/bin" ++ "/" ++ command,
                  "/sbin" ++ "/" ++ command,
                  "/usr/sbin" ++ "/" ++ command].filter (fun p => ex p)).headD
                ("/bin/" ++ command)))
    ∧ ProcessMgr.resolveStage ex command
        = (if ex (ProcessMgr.resolveCommandPath ex command)
           then .ok (ProcessMgr.resolveCommandPath ex command)
           else .error (.ProcessExecution ("Command not found in container: "
                  ++ ProcessMgr.resolveCommandPath ex command)))
    ∧ "Command not found".data
        <+: ("Command not found in container: "
              ++ ProcessMgr.resolveCommandPath ex command).data := by
  refine ⟨?_, rfl, ?_⟩
  · unfold ProcessMgr.resolveCommandPath ProcessMgr.candidatePaths
      ProcessMgr.searchDirs
    by_cases hs : command.startsWith "/"
    · simp [hs]
    · cases h1 : ex ("/bin/" ++ command) <;>
        cases h2 : ex ("/usr/bin/" ++ command) <;>
        cases h3 : ex ("/sbin/" ++ command) <;>
        cases h4 : ex ("/usr/sbin/" ++ command) <;>
        simp [hs, List.find?, List.filter, h1, h2, h3, h4]
  · have hbase : "Command not found".data
        <+: "Command not found in container: ".data := by decide
    have happ : ("Command not found in container: "
          ++ ProcessMgr.resolveCommandPath ex command).data
        = "Command not found in container: ".data
          ++ (ProcessMgr.resolveCommandPath ex command).data := rfl
    rw [happ]
    exact hbase.trans (List.prefix_append _ _)

/-- C6: `build_argv` never returns an `InvalidString` (or any other) error:
on the NUL-free path it returns `Ok(argv)`, and a NUL byte in the command
path or in an argument makes the `.unwrap()` panic (modelled by `none`),
aborting instead of failing.  Evaluated at the command path `/bin/a\x00b`
(bytes `[47, 98, 105, 110, 47, 97, 0, 98]`). -/
theorem build_argv_panics_on_nul :
    ProcessMgr.build_argv [47, 98, 105, 110, 47, 97, 0, 98] [] = none
    ∧ (∀ (cp : List Nat) (args : List (List Nat)),
        ProcessMgr.build_argv cp args = none
        ∨ ∃ v, ProcessMgr.build_argv cp args = some (.ok v))
    ∧ ProcessMgr.build_argv [47, 98] [[97]] = some (.ok [[47, 98], [97]]) := by
  refine ⟨rfl, ?_, rfl⟩
  intro cp args
  cases hc : ProcessMgr.cstringNew cp with
  | error e => exact Or.inl (by simp [ProcessMgr.build_argv, hc])
  | ok c =>
    cases hu : ProcessMgr.unwrapArgs args with
    | none => exact Or.inl (by simp [ProcessMgr.build_argv, hc, hu])
    | some rest =>
      exact Or.inr ⟨c :: rest, by simp [ProcessMgr.build_argv, hc, hu]⟩

/-! ## Boot sequence (src/main.rs) -/

namespace MainRun

/-- Environment of one `run()` invocation: the privilege check, whether any
limit was requested, the filesystem environment and inputs of the cgroup
block, and the results of the remaining steps (each a fallible call sequenced
with `?` in `run`).  `enterRes` is the value `enter_pid_namespace` returns to
`run`, i.e. the child branch or a fork failure; the parent branch terminates
inside that call and never reaches the rest of `run`. -/
structure RunEnv where
  isRoot : Bool
  limitsRequested : Bool
  cgEnv : CgroupB.CgEnv
  cgroupConfig : CgroupB.CgroupConfig
  version : CgroupVersion
  pid : Int
  unshareRes : ContainerResult Unit
  enterRes : ContainerResult Unit
  hostnameRes : ContainerResult Unit
  fsRes : ContainerResult Unit
  execRes : ContainerResult Unit

/-- `run()` from `src/main.rs`: root check, optional cgroup block
(`CgroupManager::new(..)?` — which never fails — then `manager.setup()?`,
then `manager.add_process(getpid().as_raw());` whose result is discarded
without `?`), then `unshare_namespaces`, `enter_pid_namespace`,
`set_hostname`, `setup_container_filesystem` and
`execute_container_command`, each sequenced with `?`. -/
def run (env : RunEnv) : ContainerResult Unit :=
  if env.isRoot then
    let cgroupStep : ContainerResult Unit :=
      if env.limitsRequested then
        let manager := CgroupB.CgroupManager.new env.version env.cgroupConfig
        match CgroupB.setup manager env.cgEnv with
        | .error e => .error e
        | .ok _ =>
          let _ := CgroupB.addProcess manager env.cgEnv env.pid
          .ok ()
      else .ok ()
    match cgroupStep with
    | .error e => .error e
    | .ok _ =>
      match env.unshareRes with
      | .error e => .error e
      | .ok _ =>
        match env.enterRes with
        | .error e => .error e
        | .ok _ =>
          match env.hostnameRes with
          | .error e => .error e
          | .ok _ =>
            match env.fsRes with
            | .error e => .error e
            | .ok _ =>
              match env.execRes with
              | .error e => .error e
              | .ok _ => .ok ()
  else .error .RootRequired

/-- `main()` from `src/main.rs`: exit code 1 (with a logged cause) when `run`
returns an error, 0 otherwise. -/
def mainExit (env : RunEnv) : Nat :=
  match run env with
  | .ok _ => 0
  | .error _ => 1

end MainRun

/-- C4 (counterexample): with root privileges, limits requested, and a
filesystem in which every cgroup control-file write fails, the attach of the
current pid fails inside `add_process` — yet `run` succeeds and the program
exits 0, because `setup`/`add_process` swallow the version-specific result
and `run` discards the `add_process` return value. -/
theorem run_attach_failure_exits_zero_counterexample :
    MainRun.mainExit
        { isRoot := true, limitsRequested := true,
          cgEnv := ⟨.ok (), fun _ => some "boom"⟩,
          cgroupConfig := CgroupB.CgroupConfig.new "c", version := .V2,
          pid := 7, unshareRes := .ok (), enterRes := .ok (),
          hostnameRes := .ok (), fsRes := .ok (), execRes := .ok () } = 0
    ∧ CgroupB.addProcessV2 ⟨.ok (), fun _ => some "boom"⟩
        (CgroupB.CgroupManager.new .V2 (CgroupB.CgroupConfig.new "c")).cgroup_path
        7 = .error (.Cgroup "boom") := by
  exact ⟨rfl, rfl⟩

/-- C4 (amended): `run` aborts with exit code 1 exactly when one of the
propagated steps fails — privilege check, namespace unshare, intermediate
fork, hostname setting, root pivot, or command execution; cgroup setup and
attach failures are swallowed and never affect the exit code. -/
theorem run_abort_iff_propagated_step_fails (env : MainRun.RunEnv) :
    MainRun.mainExit env = 0
      ↔ (env.isRoot = true ∧ env.unshareRes = .ok () ∧ env.enterRes = .ok ()
          ∧ env.hostnameRes = .ok () ∧ env.fsRes = .ok ()
          ∧ env.execRes = .ok ()) := by
  unfold MainRun.mainExit MainRun.run
  cases hr : env.isRoot <;> cases hl : env.limitsRequested <;>
    cases hu : env.unshareRes <;> cases he : env.enterRes <;>
    cases hh : env.hostnameRes <;> cases hf : env.fsRes <;>
    cases hx : env.execRes <;>
    simp [CgroupB.setup, hr, hl, hu, he, hh, hf, hx]

/-- Witness for `run_abort_iff_propagated_step_fails`: a run in which every
propagated step succeeds exits 0. -/
theorem run_abort_iff_propagated_step_fails_witness :
    MainRun.mainExit
        { isRoot := true, limitsRequested := false,
          cgEnv := ⟨.ok (), fun _ => none⟩,
          cgroupConfig := CgroupB.CgroupConfig.new "w", version := .V2,
          pid := 3, unshareRes := .ok (), enterRes := .ok (),
          hostnameRes := .ok (), fsRes := .ok (), execRes := .ok () } = 0 :=
  (run_abort_iff_propagated_step_fails _).mpr
    ⟨rfl, rfl, rfl, rfl, rfl, rfl⟩

/-- Witness for `cgroup_path_v1_root_and_cleanup_target` at concrete
configurations, including the nested implication discharged at a concrete
membership. -/
theorem cgroup_path_v1_root_and_cleanup_target_witness :
    (CgroupA.CgroupManager.new .V1 (CgroupA.CgroupConfig.new "w9")).cgroup_path
        = "/sys/fs/cgroup"
    ∧ CgroupB.FsAction.removeDirAll
        (CgroupB.CgroupManager.new .V2 (CgroupB.CgroupConfig.new "w9")).cgroup_path
        ∈ (CgroupB.cleanup
            (CgroupB.CgroupManager.new .V2 (CgroupB.CgroupConfig.new "w9"))
            ⟨false, []⟩).2
    ∧ "/sys/fs/cgroup" ++ "/" ++ "w9"
        = (CgroupB.CgroupManager.new .V2
            (CgroupB.CgroupConfig.new "w9")).cgroup_path :=
  ⟨(cgroup_path_v1_root_and_cleanup_target.1 _).1,
    (cgroup_path_v1_root_and_cleanup_target.2.2 _ ⟨false, []⟩).1,
    (cgroup_path_v1_root_and_cleanup_target.2.2
        (CgroupB.CgroupManager.new .V2 (CgroupB.CgroupConfig.new "w9"))
        ⟨false, []⟩).2.1 ("/sys/fs/cgroup" ++ "/" ++ "w9") (by decide)⟩
